import Mathlib

/-!
Shallow embedding of the WebsiteScore scoring engine.

Source files modelled:
- `server/services/websiteQualityAnalyzer.js` (`WebsiteQualityAnalyzer`, `PageSpeedAnalyzer`)
- `server/services/trustSecurityAnalyzer.js` (`TrustSecurityAnalyzer`)
- `server/routes/analyze.js` (the POST handler: validation and aggregation)

Modelling conventions:
- JavaScript numbers are modelled as exact rationals (`ℚ`) and integers (`ℤ`, `ℕ`);
  `Math.round` becomes `jsRound`, i.e. `⌊x + 1/2⌋` (round half toward +∞).
- The cheerio document is modelled by the structure `Doc`, one field per DOM query the
  analyzers perform (the document-parsing library is an external collaborator; each
  field is the result of exactly one selector/extraction used in the source).
- HTTP headers are a structure of `Option String` fields, one per header the code reads
  (`none` = header absent). JavaScript truthiness of a header/attribute value is
  `strTruthy` (absent and empty string are falsy).
- `String.prototype.includes`, `trim`, `toLowerCase`, the word count, and the few
  regexes the code uses are implemented over `List Char` by structural recursion so
  that every definition evaluates in the kernel.
- Checks are modelled with their `name`, `score` and `maxScore` fields; the
  display-only `value`/`details`/`status` strings are not modelled, except the
  crawlability `value` (`crawlabilityRobotsValue`) which a claim refers to.
-/

/-- JavaScript `Math.round` on exact rationals: round half toward positive infinity. -/
def jsRound (x : ℚ) : ℤ := Int.floor (x + 1/2)

/-- JavaScript truthiness of a possibly-absent string value:
`undefined`/`null` and the empty string are falsy, every other string is truthy. -/
def strTruthy : Option String → Bool
  | none => false
  | some s => !(s == "")

/-- JavaScript `a || b` on possibly-absent string values. -/
def jsOr (a b : Option String) : Option String := if strTruthy a then a else b

/-- Auxiliary for substring search: does the second list occur at the head of the first? -/
def startsWithList : List Char → List Char → Bool
  | _, [] => true
  | [], _ :: _ => false
  | a :: s, b :: t => a == b && startsWithList s t

/-- Does the second list occur anywhere inside the first? -/
def containsList : List Char → List Char → Bool
  | [], pat => startsWithList [] pat
  | c :: t, pat => startsWithList (c :: t) pat || containsList t pat

/-- JavaScript `s.includes(pat)`. -/
def jsIncludes (s pat : String) : Bool := containsList s.data pat.data

/-- JavaScript `s.trim()` (ASCII whitespace model). -/
def jsTrim (s : String) : String :=
  ⟨((s.data.dropWhile Char.isWhitespace).reverse.dropWhile Char.isWhitespace).reverse⟩

/-- JavaScript `s.toLowerCase()` (ASCII model, matching `Char.toLower`). -/
def jsToLower (s : String) : String := ⟨s.data.map Char.toLower⟩

/-- Word counting state machine: counts maximal runs of non-whitespace characters.
This equals the source's `text.replace(/\s+/g, ' ').trim().split(' ').filter(w => w.length > 0).length`. -/
def countWordsAux : List Char → Bool → ℕ
  | [], _ => 0
  | c :: t, inWord =>
    if c.isWhitespace then countWordsAux t false
    else (if inWord then 0 else 1) + countWordsAux t true

/-- Number of whitespace-separated words in a string. -/
def jsWordCount (s : String) : ℕ := countWordsAux s.data false

/-- Does the string contain five consecutive ASCII digits? Models the source's
`html.match(/\d{5}/)` ZIP-code test used by the physical-address trust indicator. -/
def hasFiveDigitRun : List Char → Bool
  | [] => false
  | c :: t =>
    (c.isDigit && (t.take 4).length == 4 && (t.take 4).all Char.isDigit) || hasFiveDigitRun t

/-- Does the string contain an ASCII digit or a dot? Models a successful match of the
source's `/[\d.]+/` regex (used on the `Server` / `X-Powered-By` headers). -/
def containsDigitOrDot (s : String) : Bool := s.data.any (fun c => c.isDigit || c == '.')

/-- Digits of a numeral string as a natural number. -/
def natOfDigits (l : List Char) : ℕ := l.foldl (fun acc c => acc * 10 + (c.toNat - 48)) 0

/-- JavaScript `parseFloat` restricted to strings drawn from the character class
`[0-9.]` (all the source ever feeds it); `none` models `NaN`. -/
def jsParseFloat (l : List Char) : Option ℚ :=
  let intPart := l.takeWhile Char.isDigit
  let rest := l.drop intPart.length
  match rest with
  | '.' :: rest2 =>
    let fracPart := rest2.takeWhile Char.isDigit
    if intPart.isEmpty && fracPart.isEmpty then none
    else some ((natOfDigits intPart : ℚ) + (natOfDigits fracPart : ℚ) / (10 ^ fracPart.length))
  | _ => if intPart.isEmpty then none else some (natOfDigits intPart)

/-- First match of the source's regex `/maximum-scale=([0-9.]+)/`: scans the string
left to right for an occurrence of `maximum-scale=` followed by at least one
character of the class `[0-9.]`, and returns the captured group. -/
def scanMaxScale : List Char → Option (List Char)
  | [] => none
  | c :: t =>
    let pat := "maximum-scale=".data
    if startsWithList (c :: t) pat then
      let ds := ((c :: t).drop pat.length).takeWhile (fun ch => ch.isDigit || ch == '.')
      if ds.isEmpty then scanMaxScale t else some ds
    else scanMaxScale t

/-- One scored rule, smallest scoring unit of the report
(`value`/`details`/`status` display fields are not modelled). -/
structure Check where
  name : String
  score : ℤ
  maxScore : ℤ
deriving Repr, DecidableEq

/-- A named group of checks. -/
structure Category where
  name : String
  checks : List Check
deriving Repr, DecidableEq

/-- Category score: the sum of its checks' scores (the source recomputes this
with `Object.values(checks).reduce((sum, c) => sum + c.score, 0)`). -/
def Category.score (c : Category) : ℤ := (c.checks.map Check.score).sum

/-- Category maxScore: the sum of its checks' maxScores. -/
def Category.maxScore (c : Category) : ℤ := (c.checks.map Check.maxScore).sum

/-- Look a check up by its display name. -/
def findCheck (cat : Category) (n : String) : Option Check :=
  cat.checks.find? (fun c => c.name == n)

/-- Result of one analyzer: categories plus the aggregated 0-100 score. -/
structure AnalyzerResult where
  score : ℤ
  categories : List Category
deriving Repr, DecidableEq

/-- The flattened check list of an analyzer result. -/
def AnalyzerResult.allChecks (r : AnalyzerResult) : List Check :=
  (r.categories.map Category.checks).flatten

/-- The parsed document, one field per DOM query the analyzers perform.
Counts are element counts of the given selector; `Option String` fields are
attribute reads (`none` = element or attribute absent). -/
structure Doc where
  /-- Text content of `title` (the analyzers apply `trim` themselves). -/
  title : String := ""
  /-- Content attribute of `meta[name="description"]`. -/
  metaDescription : Option String := none
  /-- Href of the first favicon `link`. -/
  faviconHref : Option String := none
  /-- Content attribute of `meta[name="viewport"]`. -/
  viewportContent : Option String := none
  /-- Number of `h1` elements. -/
  h1Count : ℕ := 0
  /-- Text content of `body`. -/
  bodyText : String := ""
  /-- Number of `img` elements. -/
  imgCount : ℕ := 0
  /-- Number of `img[src*=".webp"]` elements. -/
  imgWebpCount : ℕ := 0
  /-- Number of `source[type="image/webp"]` elements. -/
  sourceWebpCount : ℕ := 0
  /-- Number of `picture` elements. -/
  pictureCount : ℕ := 0
  /-- Content of `meta[property="og:title"]`. -/
  ogTitle : Option String := none
  /-- Content of `meta[property="og:description"]`. -/
  ogDescription : Option String := none
  /-- Content of `meta[property="og:image"]`. -/
  ogImage : Option String := none
  /-- Content of `meta[name="twitter:card"]`. -/
  twitterCard : Option String := none
  /-- Content of `meta[name="twitter:title"]`. -/
  twitterTitle : Option String := none
  /-- Content of `meta[name="twitter:description"]`. -/
  twitterDescription : Option String := none
  /-- Content of `meta[name="twitter:image"]`. -/
  twitterImage : Option String := none
  /-- Href of `link[rel="canonical"]`. -/
  canonicalHref : Option String := none
  /-- Number of `link[rel="canonical"]` elements. -/
  canonicalCount : ℕ := 0
  /-- Lang attribute of `html`. -/
  htmlLang : Option String := none
  /-- Charset attribute of `meta[charset]`. -/
  charsetAttr : Option String := none
  /-- Content of `meta[http-equiv="Content-Type"]`. -/
  httpEquivContentType : Option String := none
  /-- Number of `script[type="application/ld+json"]` elements. -/
  jsonLdCount : ℕ := 0
  /-- Number of `script:not([async]):not([defer]):not([type="application/ld+json"])`. -/
  blockingScriptCount : ℕ := 0
  /-- Number of `img[width][height]` elements. -/
  imgWithDimCount : ℕ := 0
  /-- Number of `iframe` elements. -/
  iframeCount : ℕ := 0
  /-- Number of `iframe[width][height]` elements. -/
  iframeWithDimCount : ℕ := 0
  /-- Whether `meta[name="robots"][content*="noindex"]` matches. -/
  noindex : Bool := false
  /-- Text content of each `a` element, in document order. -/
  linkTexts : List String := []
  /-- Number of `a[href^="javascript:"]` elements. -/
  jsLinkCount : ℕ := 0
  /-- Number of `img[alt]` elements. -/
  imgAltCount : ℕ := 0
  /-- Number of `link[hreflang]` elements. -/
  hreflangLinkCount : ℕ := 0
  /-- Number of `img[srcset]` elements. -/
  imgSrcsetCount : ℕ := 0
  /-- Number of `picture source` elements. -/
  pictureSourceCount : ℕ := 0
  /-- Whether `body[aria-hidden="true"]` matches. -/
  bodyAriaHiddenTrue : Bool := false
  /-- Number of `button` elements. -/
  buttonCount : ℕ := 0
  /-- Number of buttons with text content, `aria-label` or `title`. -/
  buttonAccessibleCount : ℕ := 0
  /-- Number of non-hidden, non-submit, non-button `input` elements. -/
  inputCount : ℕ := 0
  /-- Number of such inputs with `aria-label`, `placeholder` or a matching `label[for]`. -/
  inputLabeledCount : ℕ := 0
  /-- Number of focusable elements inside `[aria-hidden="true"]` subtrees. -/
  ariaHiddenFocusableCount : ℕ := 0
  /-- Number of `a` elements with text content, `aria-label` or an `img[alt]` child. -/
  linkAccessibleCount : ℕ := 0
  /-- Number of `ul, ol` elements. -/
  listCount : ℕ := 0
  /-- Number of those lists whose children are all `li`, `script` or `template`. -/
  validListCount : ℕ := 0
  /-- Number of `li` elements whose parent is not `ul`, `ol` or `menu`. -/
  orphanedLiCount : ℕ := 0
  /-- Number of elements with a `tabindex` attribute parsing to a value greater than 0. -/
  positiveTabindexCount : ℕ := 0
  /-- Number of `table` elements. -/
  tableCount : ℕ := 0
  /-- Number of `table th` elements. -/
  tableThCount : ℕ := 0
  /-- Heading levels of `h1..h6` elements in document order. -/
  headingLevels : List ℕ := []
  /-- Number of `main` elements. -/
  mainCount : ℕ := 0
  /-- Number of `[role="main"]` elements. -/
  roleMainCount : ℕ := 0
deriving Repr, DecidableEq

/-- The HTTP response headers the analyzers read, `none` = header absent. -/
structure Headers where
  strictTransportSecurity : Option String := none
  contentSecurityPolicy : Option String := none
  xFrameOptions : Option String := none
  xContentTypeOptions : Option String := none
  xXssProtection : Option String := none
  referrerPolicy : Option String := none
  permissionsPolicy : Option String := none
  featurePolicy : Option String := none
  cacheControl : Option String := none
  crossOriginEmbedderPolicy : Option String := none
  crossOriginOpenerPolicy : Option String := none
  crossOriginResourcePolicy : Option String := none
  server : Option String := none
  via : Option String := none
  cfRay : Option String := none
  xVercelId : Option String := none
  xAmzCfId : Option String := none
  xCache : Option String := none
  xPoweredBy : Option String := none
  xSucuriId : Option String := none
  xCdn : Option String := none
deriving Repr, DecidableEq

/-- `WebsiteQualityAnalyzer.analyzeSiteQuality` (lines 66-167): Title, Meta Description,
Favicon, Viewport and Headings checks. -/
def analyzeSiteQuality (d : Doc) : Category :=
  let title := jsTrim d.title
  let titleLength := title.length
  let titleScore : ℤ :=
    if 30 ≤ titleLength ∧ titleLength ≤ 60 then 20
    else if 0 < titleLength ∧ titleLength < 30 then 16
    else if titleLength > 60 then 12
    else 0
  let metaDesc := d.metaDescription.getD ""
  let metaDescLength := metaDesc.length
  let metaDescScore : ℤ :=
    if 120 ≤ metaDescLength ∧ metaDescLength ≤ 160 then 15
    else if 0 < metaDescLength ∧ metaDescLength < 120 then 10
    else if metaDescLength > 160 then 8
    else 0
  let faviconScore : ℤ := if strTruthy d.faviconHref then 5 else 0
  let viewportScore : ℤ := if strTruthy d.viewportContent then 5 else 0
  let hasH1 := d.h1Count == 1
  let headingsScore : ℤ := if hasH1 then 5 else if d.h1Count > 1 then 3 else 0
  { name := "Site Quality",
    checks :=
      [ { name := "Title", score := titleScore, maxScore := 20 },
        { name := "Meta Description", score := metaDescScore, maxScore := 15 },
        { name := "Favicon", score := faviconScore, maxScore := 5 },
        { name := "Viewport Meta", score := viewportScore, maxScore := 5 },
        { name := "Headings", score := headingsScore, maxScore := 5 } ] }

/-- `WebsiteQualityAnalyzer.analyzeContentQuality` (lines 169-217): Content Length and
Image Optimization checks. The optimized ratio is
`allImages > 0 ? (webpImages + pictureElements) / allImages : 1` where `webpImages`
counts `img[src*=".webp"], source[type="image/webp"]` and `pictureElements` counts
`picture` elements. -/
def analyzeContentQuality (d : Doc) : Category :=
  let wc := jsWordCount d.bodyText
  let wordCountScore : ℤ := if wc ≥ 300 then 5 else if wc ≥ 100 then 3 else 0
  let allImages := d.imgCount
  let webpImages := d.imgWebpCount + d.sourceWebpCount
  let pictureElements := d.pictureCount
  let optimized : ℚ := if allImages > 0 then ((webpImages + pictureElements : ℕ) : ℚ) / (allImages : ℚ) else 1
  let imageOptScore : ℤ := jsRound (optimized * 4)
  { name := "Content Quality",
    checks :=
      [ { name := "Content Length", score := wordCountScore, maxScore := 5 },
        { name := "Image Optimization", score := imageOptScore, maxScore := 4 } ] }

/-- `WebsiteQualityAnalyzer.analyzeOpenGraph` (lines 219-258). -/
def analyzeOpenGraph (d : Doc) : Category :=
  { name := "Open Graph",
    checks :=
      [ { name := "OG Title", score := if strTruthy d.ogTitle then 5 else 0, maxScore := 5 },
        { name := "OG Description", score := if strTruthy d.ogDescription then 5 else 0, maxScore := 5 },
        { name := "OG Image", score := if strTruthy d.ogImage then 5 else 0, maxScore := 5 } ] }

/-- `WebsiteQualityAnalyzer.analyzeTwitterCards` (lines 260-309). -/
def analyzeTwitterCards (d : Doc) : Category :=
  { name := "Twitter Cards",
    checks :=
      [ { name := "Card Type", score := if strTruthy d.twitterCard then 3 else 0, maxScore := 3 },
        { name := "Twitter Title", score := if strTruthy d.twitterTitle then 3 else 0, maxScore := 3 },
        { name := "Twitter Description", score := if strTruthy d.twitterDescription then 2 else 0, maxScore := 2 },
        { name := "Twitter Image", score := if strTruthy d.twitterImage then 2 else 0, maxScore := 2 } ] }

/-- `WebsiteQualityAnalyzer.analyzeTechnicalSeo` (lines 311-361). The charset value is
`meta[charset] attr || meta[http-equiv="Content-Type"] attr`. -/
def analyzeTechnicalSeo (d : Doc) : Category :=
  let charset := jsOr d.charsetAttr d.httpEquivContentType
  { name := "Technical SEO",
    checks :=
      [ { name := "Canonical URL", score := if strTruthy d.canonicalHref then 5 else 0, maxScore := 5 },
        { name := "HTML Lang", score := if strTruthy d.htmlLang then 3 else 0, maxScore := 3 },
        { name := "Character Encoding", score := if strTruthy charset then 3 else 0, maxScore := 3 },
        { name := "Schema.org JSON-LD", score := if d.jsonLdCount > 0 then 4 else 0, maxScore := 4 } ] }

/-- Constructor normalization of the auxiliary artifacts (lines 12-14):
`additionalData.robotsTxt || null` coerces every falsy content value (null, false and
the empty string) to null. In the model the fetched content is `Option String`
(`none` = fetch failed), so normalization maps `some ""` to `none`. -/
def auxNormalize : Option String → Option String
  | some s => if s == "" then none else some s
  | none => none

/-- Value field of the crawlability `robots.txt` check (lines 367-375):
`hasRobots ? 'Present' : 'Missing'` where `hasRobots` is
`robotsTxt !== null && robotsTxt !== false` on the constructor-normalized field. -/
def crawlabilityRobotsValue (robotsTxt : Option String) : String :=
  if robotsTxt.isSome then "Present" else "Missing"

/-- `WebsiteQualityAnalyzer.analyzeCrawlability` (lines 363-405), over the
constructor-normalized artifacts. -/
def analyzeCrawlability (robotsTxt sitemap llmsTxt : Option String) : Category :=
  { name := "Crawlability",
    checks :=
      [ { name := "robots.txt", score := if robotsTxt.isSome then 4 else 0, maxScore := 4 },
        { name := "Sitemap", score := if sitemap.isSome then 4 else 0, maxScore := 4 },
        { name := "llms.txt", score := if llmsTxt.isSome then 3 else 0, maxScore := 3 } ] }

/-- `WebsiteQualityAnalyzer.analyze` (lines 17-64): runs the six category analyzers,
flattens all their checks and sets
`score = Math.round((earnedPoints / maxPoints) * 100)`. The constructor's
normalization of the three auxiliary artifacts (lines 12-14) is applied first. -/
def qualityAnalyze (d : Doc) (robotsTxt sitemap llmsTxt : Option String) : AnalyzerResult :=
  let robots := auxNormalize robotsTxt
  let smap := auxNormalize sitemap
  let llms := auxNormalize llmsTxt
  let siteQuality := analyzeSiteQuality d
  let contentQuality := analyzeContentQuality d
  let openGraph := analyzeOpenGraph d
  let twitterCards := analyzeTwitterCards d
  let technicalSeo := analyzeTechnicalSeo d
  let crawlability := analyzeCrawlability robots smap llms
  let allChecks := siteQuality.checks ++ contentQuality.checks ++ openGraph.checks ++
      twitterCards.checks ++ technicalSeo.checks ++ crawlability.checks
  let earnedPoints := (allChecks.map Check.score).sum
  let maxPoints := (allChecks.map Check.maxScore).sum
  { score := jsRound (((earnedPoints : ℚ) / (maxPoints : ℚ)) * 100),
    categories := [siteQuality, contentQuality, openGraph, twitterCards, technicalSeo, crawlability] }

/-- `PageSpeedAnalyzer.analyzePerformance` (lines 471-603): LCP, FCP, TBT, CLS and
Speed Index, all derived from `loadTime` (milliseconds) and static markup counts. -/
def analyzePerformance (d : Doc) (loadTime : ℕ) : Category :=
  let lcpTime : ℚ := (loadTime : ℚ) * (13/10)
  let lcpScore : ℤ := if lcpTime < 2500 then 25 else if lcpTime < 4000 then 22 else 10
  let fcpTime : ℚ := (loadTime : ℚ) * (6/10)
  let fcpScore : ℤ := if fcpTime < 1800 then 10 else if fcpTime < 3000 then 7 else 3
  let tbtTime : ℕ := d.blockingScriptCount * 50
  let tbtScore : ℤ := if tbtTime > 600 then 10 else if tbtTime > 300 then 20
    else if tbtTime > 150 then 25 else 30
  let unsizedMedia : ℤ := ((d.imgCount : ℤ) - (d.imgWithDimCount : ℤ)) +
    ((d.iframeCount : ℤ) - (d.iframeWithDimCount : ℤ))
  let clsScore : ℤ := if unsizedMedia > 5 then 10 else if unsizedMedia > 2 then 18
    else if unsizedMedia > 0 then 22 else 25
  let speedIndex : ℚ := (loadTime : ℚ) * (11/10)
  let siScore : ℤ := if speedIndex < 3400 then 10 else if speedIndex < 5800 then 7 else 3
  { name := "Performance",
    checks :=
      [ { name := "Largest Contentful Paint", score := lcpScore, maxScore := 25 },
        { name := "First Contentful Paint", score := fcpScore, maxScore := 10 },
        { name := "Total Blocking Time", score := tbtScore, maxScore := 30 },
        { name := "Cumulative Layout Shift", score := clsScore, maxScore := 25 },
        { name := "Speed Index", score := siScore, maxScore := 10 } ] }

/-- The link texts the source's descriptive-link filter rejects (lines 652-657). -/
def nonDescriptiveTexts : List String := ["click here", "here", "read more", "link", "more"]

/-- `PageSpeedAnalyzer.analyzeSEO` (lines 605-729). -/
def analyzeSEO (d : Doc) : Category :=
  let indexableScore : ℤ := if d.noindex then 0 else 31
  let hasTitle := (jsTrim d.title).length > 0
  let hasMetaDesc := strTruthy d.metaDescription
  let links := d.linkTexts
  let descriptiveLinks := (links.filter (fun t =>
    let text := jsToLower (jsTrim t)
    text.length > 0 && !(nonDescriptiveTexts.contains text))).length
  let descriptiveLinkScore : ℤ :=
    if links.length == 0 then 8 else jsRound (((descriptiveLinks : ℕ) : ℚ) / (links.length : ℚ) * 8)
  let jsLinks := d.jsLinkCount
  let crawlableScore : ℤ := if jsLinks == 0 then 8 else max 0 (8 - (jsLinks : ℤ))
  let allImages := d.imgCount
  let altScore : ℤ :=
    if allImages == 0 then 8 else jsRound (((d.imgAltCount : ℕ) : ℚ) / (allImages : ℚ) * 8)
  let hasHreflang := d.hreflangLinkCount > 0 || d.htmlLang.isSome
  let hasCanonical := d.canonicalCount > 0
  { name := "SEO",
    checks :=
      [ { name := "Page isn\x27t blocked from indexing", score := indexableScore, maxScore := 31 },
        { name := "Document has a `<title>` element", score := if hasTitle then 8 else 0, maxScore := 8 },
        { name := "Document has a meta description", score := if hasMetaDesc then 8 else 0, maxScore := 8 },
        { name := "Page has successful HTTP status code", score := 8, maxScore := 8 },
        { name := "Links have descriptive text", score := descriptiveLinkScore, maxScore := 8 },
        { name := "Links are crawlable", score := crawlableScore, maxScore := 8 },
        { name := "robots.txt is valid", score := 8, maxScore := 8 },
        { name := "Image elements have [alt] attributes", score := altScore, maxScore := 8 },
        { name := "Document has a valid `hreflang`", score := if hasHreflang then 8 else 4, maxScore := 8 },
        { name := "Document has a valid `rel=canonical`", score := if hasCanonical then 8 else 0, maxScore := 8 } ] }

/-- `PageSpeedAnalyzer.analyzeBestPractices` (lines 731-871). `protocol` is the parsed
URL's protocol (for example `"https:"`), `html` the raw page source. -/
def analyzeBestPractices (protocol : String) (html : String) (d : Doc) : Category :=
  let isHttps := protocol == "https:"
  let hasDeprecated := jsIncludes html "document.write" || jsIncludes html "eval(" ||
    jsIncludes html "with("
  let hasTrackers := jsIncludes html "google-analytics" || jsIncludes html "facebook.com/tr" ||
    jsIncludes html "doubleclick.net"
  let pasteBlocked := jsIncludes html "onpaste=\"return false\"" || jsIncludes html "onpaste=\"false\""
  let hasGeoOnLoad := jsIncludes html "navigator.geolocation.getCurrentPosition" &&
    !(jsIncludes html "addEventListener")
  let hasNotifOnLoad := jsIncludes html "Notification.requestPermission" &&
    !(jsIncludes html "addEventListener")
  let totalImages := d.imgCount
  let aspectScore : ℤ :=
    if totalImages == 0 then 4 else jsRound (((d.imgWithDimCount : ℕ) : ℚ) / (totalImages : ℚ) * 4)
  let responsiveImages := d.imgSrcsetCount + d.pictureSourceCount
  let hasDoctype := jsIncludes (jsToLower html) "<!doctype html"
  let hasCharset := strTruthy (jsOr d.charsetAttr d.httpEquivContentType)
  { name := "Best Practices",
    checks :=
      [ { name := "Uses HTTPS", score := if isHttps then 19 else 0, maxScore := 19 },
        { name := "Avoids deprecated APIs", score := if hasDeprecated then 0 else 19, maxScore := 19 },
        { name := "Avoids third-party cookies", score := if hasTrackers then 12 else 19, maxScore := 19 },
        { name := "Allows users to paste into input fields", score := if pasteBlocked then 0 else 12, maxScore := 12 },
        { name := "Avoids requesting the geolocation permission on page load", score := if hasGeoOnLoad then 0 else 4, maxScore := 4 },
        { name := "Avoids requesting the notification permission on page load", score := if hasNotifOnLoad then 0 else 4, maxScore := 4 },
        { name := "Displays images with correct aspect ratio", score := aspectScore, maxScore := 4 },
        { name := "Serves images with appropriate resolution", score := if responsiveImages > 0 then 4 else 2, maxScore := 4 },
        { name := "Page has the HTML doctype", score := if hasDoctype then 4 else 0, maxScore := 4 },
        { name := "Properly defines charset", score := if hasCharset then 4 else 0, maxScore := 4 },
        { name := "Browser errors were logged to the console", score := 4, maxScore := 4 },
        { name := "No issues in the `Issues` panel in Chrome Devtools", score := 4, maxScore := 4 } ] }

/-- The source's `^[a-z]{2}(-[A-Z]{2})?$` language-code pattern (lines 1066-1068). -/
def validLangCode (s : String) : Bool :=
  match s.data with
  | [a, b] => a.isLower && b.isLower
  | [a, b, dash, e, f] => a.isLower && b.isLower && dash == '-' && e.isUpper && f.isUpper
  | _ => false

/-- The source's heading-order loop (lines 1167-1177): valid unless some heading level
exceeds its predecessor by more than one. -/
def headingOrderValid : List ℕ → Bool
  | [] => true
  | [_] => true
  | a :: b :: rest => (b ≤ a + 1) && headingOrderValid (b :: rest)

/-- `PageSpeedAnalyzer.analyzeAccessibility` (lines 873-1203). -/
def analyzeAccessibility (d : Doc) : Category :=
  let buttonScore : ℤ :=
    if d.buttonCount == 0 then 5
    else jsRound (((d.buttonAccessibleCount : ℕ) : ℚ) / (d.buttonCount : ℚ) * 5)
  let imgAltScore : ℤ :=
    if d.imgCount == 0 then 5 else jsRound (((d.imgAltCount : ℕ) : ℚ) / (d.imgCount : ℚ) * 5)
  let labelScore : ℤ :=
    if d.inputCount == 0 then 5
    else jsRound (((d.inputLabeledCount : ℕ) : ℚ) / (d.inputCount : ℚ) * 5)
  let viewport := d.viewportContent.getD ""
  let hasUserScalableNo := jsIncludes viewport "user-scalable=no" || jsIncludes viewport "user-scalable=0"
  let maxScaleTooLow :=
    match scanMaxScale viewport.data with
    | some m => match jsParseFloat m with
      | some q => decide (q < 5)
      | none => false
    | none => false
  let scalableBad := hasUserScalableNo || maxScaleTooLow
  let hasTitle := (jsTrim d.title).length > 0
  let isValidLang := match d.htmlLang with
    | some v => validLangCode v
    | none => false
  let linkScore : ℤ :=
    if d.linkTexts.length == 0 then 3
    else jsRound (((d.linkAccessibleCount : ℕ) : ℚ) / (d.linkTexts.length : ℚ) * 3)
  let listScore : ℤ :=
    if d.listCount == 0 then 3
    else jsRound (((d.validListCount : ℕ) : ℚ) / (d.listCount : ℚ) * 3)
  let tablesOk := d.tableThCount > 0 || d.tableCount == 0
  let headingOk := headingOrderValid d.headingLevels
  let hasMain := d.mainCount > 0 || d.roleMainCount > 0
  { name := "Accessibility",
    checks :=
      [ { name := "`[aria-*]` attributes match their roles", score := 5, maxScore := 5 },
        { name := "`[aria-hidden=\"true\"]` is not present on the document `<body>`", score := if d.bodyAriaHiddenTrue then 0 else 5, maxScore := 5 },
        { name := "`[role]`\x27s have all required `[aria-*]` attributes", score := 5, maxScore := 5 },
        { name := "`[role]` values are valid", score := 5, maxScore := 5 },
        { name := "`[aria-*]` attributes have valid values", score := 5, maxScore := 5 },
        { name := "`[aria-*]` attributes are valid and not misspelled", score := 5, maxScore := 5 },
        { name := "Buttons have an accessible name", score := buttonScore, maxScore := 5 },
        { name := "Image elements have `[alt]` attributes", score := imgAltScore, maxScore := 5 },
        { name := "Form elements have associated labels", score := labelScore, maxScore := 5 },
        { name := "`[user-scalable=\"no\"]` is not used in the `<meta name=\"viewport\">` element and the `[maximum-scale]` attribute is not less than 5.", score := if scalableBad then 0 else 5, maxScore := 5 },
        { name := "`button`, `link`, and `menuitem` elements have accessible names", score := 3, maxScore := 3 },
        { name := "ARIA attributes are used as specified for the element\x27s role", score := 3, maxScore := 3 },
        { name := "`[aria-hidden=\"true\"]` elements do not contain focusable descendents", score := if d.ariaHiddenFocusableCount == 0 then 3 else 0, maxScore := 3 },
        { name := "Elements use only permitted ARIA attributes", score := 3, maxScore := 3 },
        { name := "Background and foreground colors do not have a sufficient contrast ratio.", score := 3, maxScore := 3 },
        { name := "Document has a `<title>` element", score := if hasTitle then 3 else 0, maxScore := 3 },
        { name := "`<html>` element has a `[lang]` attribute", score := if strTruthy d.htmlLang then 3 else 0, maxScore := 3 },
        { name := "`<html>` element has a valid value for its `[lang]` attribute", score := if isValidLang then 3 else 0, maxScore := 3 },
        { name := "Links are distinguishable without relying on color.", score := 3, maxScore := 3 },
        { name := "Links have a discernible name", score := linkScore, maxScore := 3 },
        { name := "Lists contain only `<li>` elements and script supporting elements (`<script>` and `<template>`).", score := listScore, maxScore := 3 },
        { name := "List items (`<li>`) are contained within `<ul>`, `<ol>` or `<menu>` parent elements", score := if d.orphanedLiCount == 0 then 3 else 0, maxScore := 3 },
        { name := "No element has a `[tabindex]` value greater than 0", score := if d.positiveTabindexCount == 0 then 3 else 0, maxScore := 3 },
        { name := "Touch targets have sufficient size and spacing.", score := 3, maxScore := 3 },
        { name := "Cells in a `<table>` element that use the `[headers]` attribute refer to table cells within the same table.", score := if tablesOk then 3 else 0, maxScore := 3 },
        { name := "Heading elements appear in a sequentially-descending order", score := if headingOk then 1 else 0, maxScore := 1 },
        { name := "Document has a main landmark.", score := if hasMain then 1 else 0, maxScore := 1 } ] }

/-- Result of `PageSpeedAnalyzer.analyze`: the weighted top score plus the four
individually exposed category percentages. -/
structure PageSpeedResult where
  score : ℤ
  performanceScore : ℤ
  seoScore : ℤ
  bestPracticesScore : ℤ
  accessibilityScore : ℤ
  categories : List Category
deriving Repr, DecidableEq

/-- `PageSpeedAnalyzer.analyze` (lines 422-469): the four category ratios are combined
with weights Performance 40, SEO 25, Best Practices 20, Accessibility 15 and rounded;
each ratio is also exposed as a rounded percentage. -/
def pageSpeedAnalyze (protocol : String) (html : String) (d : Doc) (loadTime : ℕ) : PageSpeedResult :=
  let performance := analyzePerformance d loadTime
  let seo := analyzeSEO d
  let bestPractices := analyzeBestPractices protocol html d
  let accessibility := analyzeAccessibility d
  let r0 : ℚ := (performance.score : ℚ) / (performance.maxScore : ℚ)
  let r1 : ℚ := (seo.score : ℚ) / (seo.maxScore : ℚ)
  let r2 : ℚ := (bestPractices.score : ℚ) / (bestPractices.maxScore : ℚ)
  let r3 : ℚ := (accessibility.score : ℚ) / (accessibility.maxScore : ℚ)
  let weightedScore : ℚ := r0 * 40 + r1 * 25 + r2 * 20 + r3 * 15
  { score := jsRound weightedScore,
    performanceScore := jsRound (r0 * 100),
    seoScore := jsRound (r1 * 100),
    bestPracticesScore := jsRound (r2 * 100),
    accessibilityScore := jsRound (r3 * 100),
    categories := [performance, seo, bestPractices, accessibility] }

/-- `TrustSecurityAnalyzer.analyzeSecurityHeaders` (lines 52-183). `protocol` is the
parsed URL's protocol. The HSTS score starts at 10, drops to 7 when the value lacks
`includeSubDomains`, and is capped at 8 when it lacks `preload`; a missing or falsy
(empty) header value scores 0. -/
def analyzeSecurityHeaders (protocol : String) (h : Headers) : Category :=
  let isHttps := protocol == "https:"
  let hsts := h.strictTransportSecurity
  let hstsScore : ℤ :=
    if strTruthy hsts then
      let v := hsts.getD ""
      let s0 : ℤ := 10
      let s1 : ℤ := if !(jsIncludes v "includeSubDomains") then 7 else s0
      let s2 : ℤ := if !(jsIncludes v "preload") then min s1 8 else s1
      s2
    else 0
  let csp := h.contentSecurityPolicy
  let cacheControl := h.cacheControl
  let hasSecureCache := strTruthy cacheControl &&
    (jsIncludes (cacheControl.getD "") "no-store" || jsIncludes (cacheControl.getD "") "private")
  let crossOriginCount : ℤ :=
    (if strTruthy h.crossOriginEmbedderPolicy then 1 else 0) +
    (if strTruthy h.crossOriginOpenerPolicy then 1 else 0) +
    (if strTruthy h.crossOriginResourcePolicy then 1 else 0)
  { name := "Security Headers",
    checks :=
      [ { name := "HTTPS", score := if isHttps then 20 else 0, maxScore := 20 },
        { name := "HTTP Strict Transport Security", score := hstsScore, maxScore := 10 },
        { name := "Content Security Policy", score := if strTruthy csp then 10 else 0, maxScore := 10 },
        { name := "Clickjacking Protection", score := if strTruthy h.xFrameOptions then 5 else 0, maxScore := 5 },
        { name := "MIME Sniffing Protection", score := if strTruthy h.xContentTypeOptions then 5 else 0, maxScore := 5 },
        { name := "XSS Protection Header", score := if strTruthy h.xXssProtection then 3 else 0, maxScore := 3 },
        { name := "Referrer Policy", score := if strTruthy h.referrerPolicy then 5 else 0, maxScore := 5 },
        { name := "Permissions Policy", score := if strTruthy (jsOr h.permissionsPolicy h.featurePolicy) then 5 else 0, maxScore := 5 },
        { name := "Secure Caching", score := if hasSecureCache then 3 else 1, maxScore := 3 },
        { name := "Cross-Origin Isolation", score := min 4 (crossOriginCount * 2), maxScore := 4 } ] }

/-- `TrustSecurityAnalyzer.analyzeDomainTrust` (lines 312-361): all four checks are
informational stubs; Domain Rating (0/25) and Domain Age (0/5) always score zero,
Registrar and Country carry `maxScore: 0`. -/
def analyzeDomainTrust : Category :=
  { name := "Domain Trust",
    checks :=
      [ { name := "Domain Rating", score := 0, maxScore := 25 },
        { name := "Domain Age", score := 0, maxScore := 5 },
        { name := "Registrar", score := 0, maxScore := 0 },
        { name := "Country", score := 0, maxScore := 0 } ] }

/-- `TrustSecurityAnalyzer.analyzeInfrastructure` (lines 363-454). Provider and WAF
detection are informational (0 points); CDN detection scores 5, hidden server
version 3, hidden `X-Powered-By` 2. -/
def analyzeInfrastructure (h : Headers) : Category :=
  let server := h.server.getD ""
  let via := h.via.getD ""
  let xCache := h.xCache.getD ""
  let xPoweredBy := h.xPoweredBy.getD ""
  let hasCDN := strTruthy h.cfRay || strTruthy h.xAmzCfId || jsIncludes xCache "HIT" ||
    jsIncludes xCache "cloudfront" || jsIncludes via "cloudflare" ||
    jsIncludes via "akamai" || jsIncludes via "fastly"
  let exposesVersion := containsDigitOrDot server || containsDigitOrDot xPoweredBy
  { name := "Infrastructure",
    checks :=
      [ { name := "Hosting Provider", score := 0, maxScore := 0 },
        { name := "CDN Usage", score := if hasCDN then 5 else 0, maxScore := 5 },
        { name := "Server Version Hidden", score := if exposesVersion then 0 else 3, maxScore := 3 },
        { name := "X-Powered-By Hidden", score := if strTruthy h.xPoweredBy then 0 else 2, maxScore := 2 },
        { name := "Web Application Firewall", score := 0, maxScore := 0 } ] }

/-- `TrustSecurityAnalyzer.analyzeTrustIndicators` (lines 456-607): substring scans of
the (lower-cased) raw HTML for trust signals. -/
def analyzeTrustIndicators (html : String) : Category :=
  let htmlLower := jsToLower html
  let hasPrivacyPolicy := jsIncludes htmlLower "privacy policy" || jsIncludes htmlLower "privacy-policy" ||
    jsIncludes htmlLower "/privacy" || jsIncludes htmlLower "datenschutz"
  let hasTerms := jsIncludes htmlLower "terms of service" || jsIncludes htmlLower "terms-of-service" ||
    jsIncludes htmlLower "terms and conditions" || jsIncludes htmlLower "/terms" ||
    jsIncludes htmlLower "tos"
  let hasContact := jsIncludes htmlLower "contact us" || jsIncludes htmlLower "contact-us" ||
    jsIncludes htmlLower "/contact" || jsIncludes htmlLower "mailto:" ||
    jsIncludes htmlLower "tel:" || jsIncludes htmlLower "support@" || jsIncludes htmlLower "info@"
  let hasCookieConsent := jsIncludes htmlLower "cookie" &&
    (jsIncludes htmlLower "consent" || jsIncludes htmlLower "accept" ||
     jsIncludes htmlLower "policy" || jsIncludes htmlLower "banner")
  let hasAbout := jsIncludes htmlLower "about us" || jsIncludes htmlLower "about-us" ||
    jsIncludes htmlLower "/about" || jsIncludes htmlLower "our team" ||
    jsIncludes htmlLower "our story" || jsIncludes htmlLower "who we are"
  let hasAddress := jsIncludes htmlLower "address" || hasFiveDigitRun html.data ||
    jsIncludes htmlLower "street" || jsIncludes htmlLower "suite" || jsIncludes htmlLower "floor"
  let hasSocial := jsIncludes htmlLower "twitter.com" || jsIncludes htmlLower "facebook.com" ||
    jsIncludes htmlLower "linkedin.com" || jsIncludes htmlLower "instagram.com" ||
    jsIncludes htmlLower "youtube.com" || jsIncludes htmlLower "x.com"
  let hasTrustBadges := jsIncludes htmlLower "ssl" || jsIncludes htmlLower "secure" ||
    jsIncludes htmlLower "verified" || jsIncludes htmlLower "certified" ||
    jsIncludes htmlLower "trust" || jsIncludes htmlLower "norton" ||
    jsIncludes htmlLower "mcafee" || jsIncludes htmlLower "bbb"
  let hasGDPR := jsIncludes htmlLower "gdpr" || jsIncludes htmlLower "data protection" ||
    jsIncludes htmlLower "data subject" || jsIncludes htmlLower "right to be forgotten" ||
    jsIncludes htmlLower "data controller"
  { name := "Trust Indicators",
    checks :=
      [ { name := "Privacy Policy", score := if hasPrivacyPolicy then 4 else 0, maxScore := 4 },
        { name := "Terms of Service", score := if hasTerms then 3 else 0, maxScore := 3 },
        { name := "Contact Information", score := if hasContact then 3 else 0, maxScore := 3 },
        { name := "Cookie Notice", score := if hasCookieConsent then 3 else 0, maxScore := 3 },
        { name := "About Section", score := if hasAbout then 2 else 0, maxScore := 2 },
        { name := "Physical Address", score := if hasAddress then 2 else 0, maxScore := 2 },
        { name := "Social Media Presence", score := if hasSocial then 2 else 0, maxScore := 2 },
        { name := "Trust Indicators", score := if hasTrustBadges then 2 else 0, maxScore := 2 },
        { name := "GDPR Compliance", score := if hasGDPR then 2 else 0, maxScore := 2 } ] }

/-- `TrustSecurityAnalyzer.analyze` (lines 13-50): runs the four category analyzers,
flattens all their checks and sets `score = Math.round((earnedPoints / maxPoints) * 100)`.
The unused SSL-inspection path (`analyzeSSL`) is never wired in and is not modelled. -/
def securityAnalyze (protocol : String) (h : Headers) (html : String) : AnalyzerResult :=
  let securityHeaders := analyzeSecurityHeaders protocol h
  let domainTrust := analyzeDomainTrust
  let infrastructure := analyzeInfrastructure h
  let trustIndicators := analyzeTrustIndicators html
  let allChecks := securityHeaders.checks ++ domainTrust.checks ++
    infrastructure.checks ++ trustIndicators.checks
  let earnedPoints := (allChecks.map Check.score).sum
  let maxPoints := (allChecks.map Check.maxScore).sum
  { score := jsRound (((earnedPoints : ℚ) / (maxPoints : ℚ)) * 100),
    categories := [securityHeaders, domainTrust, infrastructure, trustIndicators] }

/-- The HSTS check's score inside a security-headers report, for stating claims. -/
def hstsScoreOf (protocol : String) (h : Headers) : Option ℤ :=
  (findCheck (analyzeSecurityHeaders protocol h) "HTTP Strict Transport Security").map Check.score

/-- Outcome of the POST handler's validation phase (routes/analyze.js lines 25-42):
either an early structured rejection `{ error: msg }` with an HTTP status, or
`proceed`, the single path on which the network fetch and the three analyzers run. -/
inductive RouteOutcome where
  | reject (status : ℕ) (errorMsg : String)
  | proceed
deriving Repr, DecidableEq

/-- Whether a scheme character is permitted after the first letter
(`ALPHA / DIGIT / "+" / "-" / "."`). -/
def isSchemeChar (c : Char) : Bool := c.isAlphanum || c == '+' || c == '-' || c == '.'

/-- Characters before the first colon, or `none` when there is no colon. -/
def schemeSplit : List Char → Option (List Char)
  | [] => none
  | c :: t => if c == ':' then some [] else (schemeSplit t).map (c :: ·)

/-- Modelled from the behavior of the WHATWG `URL` library (an external collaborator):
`new URL(s).protocol` is the lower-cased scheme before the first colon followed by
`":"`; `none` models the constructor throwing on an input without a valid scheme. -/
def urlProtocol (s : String) : Option String :=
  match schemeSplit s.data with
  | none => none
  | some [] => none
  | some (c :: rest) =>
    if c.isAlpha && rest.all isSchemeChar then
      some ((⟨(c :: rest).map Char.toLower⟩ : String) ++ ":")
    else none

/-- The validation phase of the POST handler (routes/analyze.js lines 25-42):
a falsy `url` field is rejected with 400 `{ error: 'URL is required' }`; a URL that
fails to parse or whose protocol is not `http:`/`https:` is rejected with 400
`{ error: 'Invalid URL format' }`; only otherwise does the handler continue to the
network fetch and the analyzers. `parsedProtocol` is the external URL library's
parse result for the url field (see `urlProtocol`). -/
def routeValidate (urlField : Option String) (parsedProtocol : Option String) : RouteOutcome :=
  if !(strTruthy urlField) then .reject 400 "URL is required"
  else
    match parsedProtocol with
    | none => .reject 400 "Invalid URL format"
    | some p => if p == "http:" || p == "https:" then .proceed else .reject 400 "Invalid URL format"

/-- The immutable inputs the scoring engine is run on once the fetch has completed:
parsed protocol, parsed document, raw HTML, response headers, measured load time and
the three auxiliary artifact contents. -/
structure Inputs where
  protocol : String
  doc : Doc
  html : String
  headers : Headers
  loadTime : ℕ
  robotsTxt : Option String
  sitemap : Option String
  llmsTxt : Option String
deriving Repr, DecidableEq

/-- The combined analysis outcome assembled by the POST handler. -/
structure AnalysisOutcome where
  overallScore : ℤ
  quality : AnalyzerResult
  security : AnalyzerResult
  pageSpeed : PageSpeedResult
deriving Repr, DecidableEq

/-- The POST handler's scoring pipeline (routes/analyze.js lines 83-133): the three
analyzers run on the same immutable inputs and the overall score is
`Math.round(quality*0.35 + security*0.30 + pageSpeed*0.35)`. -/
def fullAnalysis (i : Inputs) : AnalysisOutcome :=
  let q := qualityAnalyze i.doc i.robotsTxt i.sitemap i.llmsTxt
  let s := securityAnalyze i.protocol i.headers i.html
  let p := pageSpeedAnalyze i.protocol i.html i.doc i.loadTime
  { overallScore := jsRound ((q.score : ℚ) * (35/100) + (s.score : ℚ) * (30/100) + (p.score : ℚ) * (35/100)),
    quality := q, security := s, pageSpeed := p }

/-- A document with every query empty: the parse of the empty page. -/
def emptyDoc : Doc := {}

/-- The parse of the page `<picture><source type="image/webp"><img src="photo.jpg"></picture>`:
one `img` element, one `source[type="image/webp"]` element, one `picture` element,
no webp-src `img`, everything else empty. -/
def badImageDoc : Doc := { imgCount := 1, sourceWebpCount := 1, pictureCount := 1 }

/-- A concrete input tuple for witness instantiations. -/
def sampleInputs : Inputs :=
  { protocol := "https:", doc := emptyDoc, html := "", headers := {},
    loadTime := 1000, robotsTxt := none, sitemap := none, llmsTxt := none }

/-- C1 (code bug): on the page `<picture><source type="image/webp"><img src="photo.jpg"></picture>`
the Quality analyzer's Image Optimization check scores
`round(4 × (webpImages + pictureElements) / allImages) = round(4 × (1 + 1) / 1) = 8`,
exceeding its own declared `maxScore` of 4 — the claimed invariant `score ≤ maxScore`
fails because the numerator counts `source`/`picture` elements that are not `img`
elements, so the ratio can exceed 1. -/
theorem imageOptimization_exceeds_maxScore :
    ∃ c ∈ (analyzeContentQuality badImageDoc).checks,
      c.name = "Image Optimization" ∧ c.score = 8 ∧ c.maxScore = 4 ∧ c.score > c.maxScore := by
  have hval : analyzeContentQuality badImageDoc =
      { name := "Content Quality",
        checks := [⟨"Content Length", 0, 5⟩, ⟨"Image Optimization", 8, 4⟩] } := by
    norm_num [analyzeContentQuality, badImageDoc, jsWordCount, countWordsAux, jsRound]
  rw [hval]
  decide

/-- C4 (counterexample): at the empty page with all auxiliary artifacts absent, the
Quality analyzer produces 21 checks, not the 24 the claim states. -/
theorem quality_check_count_is_21 :
    (qualityAnalyze emptyDoc none none none).allChecks.length = 21 ∧
    (qualityAnalyze emptyDoc none none none).allChecks.length ≠ 24 := by
  constructor
  · rfl
  · decide

/-- C4 (amended): for every input, the Quality analyzer's top-level score is
`round(100 × total earned / total max)` as a flat sum across all 21 of its checks
(all categories flattened, not category-weighted). -/
theorem quality_flat_aggregation (d : Doc) (robotsTxt sitemap llmsTxt : Option String) :
    (qualityAnalyze d robotsTxt sitemap llmsTxt).allChecks.length = 21 ∧
    (qualityAnalyze d robotsTxt sitemap llmsTxt).score =
      jsRound (100 * (((qualityAnalyze d robotsTxt sitemap llmsTxt).allChecks.map Check.score).sum : ℚ) /
        (((qualityAnalyze d robotsTxt sitemap llmsTxt).allChecks.map Check.maxScore).sum : ℚ)) := by
  refine ⟨rfl, ?_⟩
  have key : ∀ e m : ℚ, jsRound (e / m * 100) = jsRound (100 * e / m) := by
    intro e m
    unfold jsRound
    congr 1
    ring
  exact key _ _

/-- C5: for every input, the Security analyzer's maxScore pool is the constant 133
(never zero here, so the division `earned / max` never has a zero denominator — a
report consisting only of 0/0 checks cannot arise), the zero-maxScore informational
checks (Registrar, Country, Hosting Provider, Web Application Firewall) are exactly
the checks contributing (0,0) to both sums, and the top score is
`round(100 × Σ check.score / Σ check.maxScore)` over all checks. -/
theorem security_flat_aggregation (protocol : String) (h : Headers) (html : String) :
    ((securityAnalyze protocol h html).allChecks.map Check.maxScore).sum = 133 ∧
    ((securityAnalyze protocol h html).allChecks.map Check.maxScore).sum ≠ 0 ∧
    (((securityAnalyze protocol h html).allChecks.filter (fun c => c.maxScore == 0)).map
        (fun c => (c.name, c.score))) =
      [("Registrar", 0), ("Country", 0), ("Hosting Provider", 0), ("Web Application Firewall", 0)] ∧
    (securityAnalyze protocol h html).score =
      jsRound (100 * (((securityAnalyze protocol h html).allChecks.map Check.score).sum : ℚ) /
        (((securityAnalyze protocol h html).allChecks.map Check.maxScore).sum : ℚ)) := by
  have h133 : ((securityAnalyze protocol h html).allChecks.map Check.maxScore).sum = (133 : ℤ) := rfl
  refine ⟨h133, by rw [h133]; decide, rfl, ?_⟩
  have key : ∀ e m : ℚ, jsRound (e / m * 100) = jsRound (100 * e / m) := by
    intro e m
    unfold jsRound
    congr 1
    ring
  exact key _ _

/-- C2: for every input, the overall score equals
`round(quality.score × 0.35 + security.score × 0.30 + pageSpeed.score × 0.35)` where
the three operands are the top-level scores of the Quality, Security and Synthetic
Performance analyzers run on that input; the handler applies no other combination
logic. -/
theorem overall_score_formula (i : Inputs) :
    (fullAnalysis i).overallScore =
      jsRound (((qualityAnalyze i.doc i.robotsTxt i.sitemap i.llmsTxt).score : ℚ) * (35/100) +
        ((securityAnalyze i.protocol i.headers i.html).score : ℚ) * (30/100) +
        ((pageSpeedAnalyze i.protocol i.html i.doc i.loadTime).score : ℚ) * (35/100)) := rfl

/-- C3: for every input, the Synthetic Performance analyzer's top score is
`round(Σ weight × categoryRatio)` over its four category ratios with fixed weights
Performance 40, SEO 25, Best Practices 20, Accessibility 15, and each of the four
category percentages `round(100 × category.score / category.maxScore)` is also
exposed individually in the result. -/
theorem pageSpeed_weighted_aggregation (protocol html : String) (d : Doc) (loadTime : ℕ) :
    (pageSpeedAnalyze protocol html d loadTime).score =
      jsRound (40 * ((analyzePerformance d loadTime).score : ℚ) / ((analyzePerformance d loadTime).maxScore : ℚ) +
        25 * ((analyzeSEO d).score : ℚ) / ((analyzeSEO d).maxScore : ℚ) +
        20 * ((analyzeBestPractices protocol html d).score : ℚ) / ((analyzeBestPractices protocol html d).maxScore : ℚ) +
        15 * ((analyzeAccessibility d).score : ℚ) / ((analyzeAccessibility d).maxScore : ℚ)) ∧
    (pageSpeedAnalyze protocol html d loadTime).performanceScore =
      jsRound (100 * ((analyzePerformance d loadTime).score : ℚ) / ((analyzePerformance d loadTime).maxScore : ℚ)) ∧
    (pageSpeedAnalyze protocol html d loadTime).seoScore =
      jsRound (100 * ((analyzeSEO d).score : ℚ) / ((analyzeSEO d).maxScore : ℚ)) ∧
    (pageSpeedAnalyze protocol html d loadTime).bestPracticesScore =
      jsRound (100 * ((analyzeBestPractices protocol html d).score : ℚ) / ((analyzeBestPractices protocol html d).maxScore : ℚ)) ∧
    (pageSpeedAnalyze protocol html d loadTime).accessibilityScore =
      jsRound (100 * ((analyzeAccessibility d).score : ℚ) / ((analyzeAccessibility d).maxScore : ℚ)) := by
  have keyW : ∀ a b c2 d2 e f g h2 : ℚ,
      jsRound (a / b * 40 + c2 / d2 * 25 + e / f * 20 + g / h2 * 15) =
        jsRound (40 * a / b + 25 * c2 / d2 + 20 * e / f + 15 * g / h2) := by
    intro a b c2 d2 e f g h2
    unfold jsRound
    congr 1
    ring
  have keyP : ∀ a b : ℚ, jsRound (a / b * 100) = jsRound (100 * a / b) := by
    intro a b
    unfold jsRound
    congr 1
    ring
  exact ⟨keyW _ _ _ _ _ _ _ _, keyP _ _, keyP _ _, keyP _ _, keyP _ _⟩

/-- C6 (counterexample): a headers map containing `strict-transport-security` with the
empty string as value lacks `includeSubDomains`, yet the HSTS check scores 0, not the
claimed 7 — the source's `if (hsts)` treats a falsy (empty) header value as absent. -/
theorem hsts_empty_value_scores_zero :
    hstsScoreOf "https:" { strictTransportSecurity := some "" } = some 0 ∧
    jsIncludes "" "includeSubDomains" = false ∧
    hstsScoreOf "https:" { strictTransportSecurity := some "" } ≠ some 7 := by
  refine ⟨rfl, rfl, ?_⟩
  decide

/-- C6 (amended): for every headers map whose `strict-transport-security` header is
present with a non-empty value, the HSTS check scores 7/10 when the value lacks
`includeSubDomains` (regardless of `preload`), 8 when it contains `includeSubDomains`
but lacks `preload`, and 10 when it contains both; when the header is absent — or
present with the empty value, which the code treats as absent — it scores 0. In
particular `max-age=31536000` scores 7/10 (see the witness). -/
theorem hsts_scoring_cases (protocol : String) (h : Headers) :
    (∀ v : String, h.strictTransportSecurity = some v → v ≠ "" →
      hstsScoreOf protocol h =
        some (if jsIncludes v "includeSubDomains" then
                (if jsIncludes v "preload" then 10 else 8) else 7)) ∧
    ((h.strictTransportSecurity = none ∨ h.strictTransportSecurity = some "") →
      hstsScoreOf protocol h = some 0) := by
  constructor
  · intro v hv hne
    have htru : strTruthy (some v) = true := by
      simp [strTruthy, hne]
    simp only [hstsScoreOf, findCheck, analyzeSecurityHeaders, hv, List.find?, htru]
    cases hincl : jsIncludes v "includeSubDomains" <;> cases hpre : jsIncludes v "preload" <;>
      simp [hincl, hpre, min_def]
  · intro hcase
    rcases hcase with hv | hv <;>
      simp only [hstsScoreOf, findCheck, analyzeSecurityHeaders, hv, List.find?] <;> rfl

/-- C6 (witness): the amended HSTS theorem instantiated at a headers map whose
`strict-transport-security` value is `max-age=31536000` (no `includeSubDomains`,
no `preload`): the check scores 7 out of 10. -/
theorem hsts_scoring_cases_witness :
    hstsScoreOf "https:" { strictTransportSecurity := some "max-age=31536000" } = some 7 := by
  have hm := (hsts_scoring_cases "https:"
      { strictTransportSecurity := some "max-age=31536000" }).1 "max-age=31536000" rfl (by decide)
  rw [hm]
  decide

/-- C7: for every page with zero `img` elements, the Quality analyzer's Image
Optimization ratio defaults to 1 and the check scores 4/4, the SEO category's
image-alt check scores its full 8, and the Accessibility category's image-alt check
scores its full 5 — the vacuous-true policy for all-N-of-N ratio checks at N = 0. -/
theorem zero_images_vacuous_full (d : Doc) (him : d.imgCount = 0) :
    (findCheck (analyzeContentQuality d) "Image Optimization").map (fun c => (c.score, c.maxScore)) =
      some (4, 4) ∧
    (findCheck (analyzeSEO d) "Image elements have [alt] attributes").map (fun c => (c.score, c.maxScore)) =
      some (8, 8) ∧
    (findCheck (analyzeAccessibility d) "Image elements have `[alt]` attributes").map
        (fun c => (c.score, c.maxScore)) =
      some (5, 5) := by
  have h4 : jsRound ((1 : ℚ) * 4) = 4 := by norm_num [jsRound]
  have h4b : jsRound (4 : ℚ) = 4 := by norm_num [jsRound]
  refine ⟨?_, ?_, ?_⟩
  · simp [analyzeContentQuality, findCheck, him, h4, h4b]
  · simp [analyzeSEO, findCheck, him]
  · simp [analyzeAccessibility, findCheck, him]

/-- C7 (witness): the vacuous-true theorem instantiated at the empty page. -/
theorem zero_images_vacuous_full_witness :
    (findCheck (analyzeContentQuality emptyDoc) "Image Optimization").map (fun c => (c.score, c.maxScore)) =
      some (4, 4) ∧
    (findCheck (analyzeSEO emptyDoc) "Image elements have [alt] attributes").map (fun c => (c.score, c.maxScore)) =
      some (8, 8) ∧
    (findCheck (analyzeAccessibility emptyDoc) "Image elements have `[alt]` attributes").map
        (fun c => (c.score, c.maxScore)) =
      some (5, 5) :=
  zero_images_vacuous_full emptyDoc rfl

/-- C8: every request whose `url` field is missing (or falsy), and every request whose
parsed protocol is not `http:`/`https:` (including URLs the URL library fails to
parse), is rejected by the handler's validation phase with status 400 and a
structured `{ error }` body, and never reaches `proceed` — the only outcome on which
the network fetch and the analyzers run. -/
theorem route_rejects_invalid (urlField parsedProtocol : Option String)
    (h : strTruthy urlField = false ∨
      (parsedProtocol ≠ some "http:" ∧ parsedProtocol ≠ some "https:")) :
    (∃ msg, routeValidate urlField parsedProtocol = .reject 400 msg) ∧
    routeValidate urlField parsedProtocol ≠ .proceed := by
  unfold routeValidate
  cases htr : strTruthy urlField with
  | false => exact ⟨⟨"URL is required", rfl⟩, by simp⟩
  | true =>
    rcases h with h | ⟨h1, h2⟩
    · rw [htr] at h
      cases h
    · cases parsedProtocol with
      | none => exact ⟨⟨"Invalid URL format", rfl⟩, by simp⟩
      | some p =>
        have hp1 : (p == "http:") = false := by
          simpa using fun hc => h1 (by rw [hc])
        have hp2 : (p == "https:") = false := by
          simpa using fun hc => h2 (by rw [hc])
        exact ⟨⟨"Invalid URL format", by simp [hp1, hp2]⟩, by simp [hp1, hp2]⟩

/-- C8 (witness): the validation theorem at the concrete request
`{ url: "ftp://example.com" }`, whose parsed protocol is `ftp:`. -/
theorem route_rejects_invalid_witness :
    (∃ msg, routeValidate (some "ftp://example.com") (urlProtocol "ftp://example.com") = .reject 400 msg) ∧
    routeValidate (some "ftp://example.com") (urlProtocol "ftp://example.com") ≠ .proceed :=
  route_rejects_invalid (some "ftp://example.com") (urlProtocol "ftp://example.com")
    (Or.inr (by decide))

/-- C9: the scoring engine is deterministic — two runs of the full pipeline (all three
analyzers plus the overall aggregation) on identical inputs produce identical reports:
every check score, category and top-level score is a pure function of
(protocol, document, html, headers, loadTime, auxiliary artifacts). -/
theorem scoring_deterministic (i j : Inputs) (h : i = j) : fullAnalysis i = fullAnalysis j :=
  congrArg fullAnalysis h

/-- C9 (witness): determinism at a concrete input tuple. -/
theorem scoring_deterministic_witness : fullAnalysis sampleInputs = fullAnalysis sampleInputs :=
  scoring_deterministic sampleInputs sampleInputs rfl

/-- C10: a successfully fetched auxiliary artifact whose content is the empty string is
coerced to null by the Quality analyzer's constructor (`content || null` is falsy on
the empty string), so the analyzer treats it as absent: the Crawlability category it
produces is the one for an absent artifact, the corresponding check scores 0, and the
robots.txt check's value reads `Missing`. -/
theorem empty_aux_treated_missing (d : Doc) (r sm ll : Option String) :
    auxNormalize (some "") = none ∧
    (qualityAnalyze d (some "") sm ll).categories.getLast? =
      some (analyzeCrawlability none (auxNormalize sm) (auxNormalize ll)) ∧
    (findCheck (analyzeCrawlability (auxNormalize (some "")) (auxNormalize sm) (auxNormalize ll))
        "robots.txt").map Check.score = some 0 ∧
    (findCheck (analyzeCrawlability (auxNormalize r) (auxNormalize (some "")) (auxNormalize ll))
        "Sitemap").map Check.score = some 0 ∧
    (findCheck (analyzeCrawlability (auxNormalize r) (auxNormalize sm) (auxNormalize (some "")))
        "llms.txt").map Check.score = some 0 ∧
    crawlabilityRobotsValue (auxNormalize (some "")) = "Missing" :=
  ⟨rfl, rfl, rfl, rfl, rfl, rfl⟩
